import Mathlib

/-!
Shallow embedding of the econstruct demo client.

The two source files are `src/DashboardCharts.jsx` (code normalization,
energy-flow allocation, synthetic chart series, chart-data shaping) and
`src/UploadAndPickLeaflet.jsx` (trailing-number extraction from a file
name and the navigation gate).  JavaScript numbers are modelled as
`Nat`/`Int` where the computation stays integral, as `Rat` where fixed
decimal constants (`0.11`, `0.45`, ...) appear, and as `Real` where
`Math.sin`/`Math.cos` are involved.  `Math.floor` is `Int.floor`,
`Math.round x` is `Int.floor (x + 1/2)` (round half towards positive
infinity, as specified for `Math.round`).
-/

namespace Econstruct

/-- Demo carbon factor (kg CO2e per kWh), `EF_GRID` in `DashboardCharts.jsx`. -/
def EF_GRID : ℚ := 0.45

/-- Left-pad a character list with copies of `c` until its length is at
least `n`; embeds JavaScript `String.prototype.padStart(n, c)`. -/
def padStart (n : ℕ) (c : Char) (l : List Char) : List Char :=
  List.replicate (n - l.length) c ++ l

/-- The digit characters of `s` in order; embeds `s.replace(/\D/g, "")`
(JavaScript `\D` is exactly the non-ASCII-digit characters). -/
def filterDigits (s : String) : List Char :=
  s.data.filter Char.isDigit

/-- Code normalizer from `useDigitsToKwh` (line 34 of
`DashboardCharts.jsx`): strip non-digits, left-pad with zeros to length
3, keep the first 3 characters. -/
def normalize (code : String) : String :=
  ((padStart 3 '0' (filterDigits code)).take 3).asString

/-- Numeric value of a digit character, as produced by JavaScript
`Number(c)` for a single digit character `c`. -/
def digitVal (c : Char) : ℕ :=
  c.toNat - 48

/-- Result record of `useDigitsToKwh`. -/
structure Kwh where
  code : String
  homeKWh : ℕ
  solarKWh : ℕ
  gridKWh : ℕ
  deriving DecidableEq

/-- `useDigitsToKwh` (lines 33-37 of `DashboardCharts.jsx`): normalize the
code and read the three digit positions as kWh quantities. -/
def useDigitsToKwh (code : String) : Kwh :=
  let s := normalize code
  { code := s
    homeKWh := digitVal (s.data.getD 0 '0')
    solarKWh := digitVal (s.data.getD 1 '0')
    gridKWh := digitVal (s.data.getD 2 '0') }

/-- Result record of `allocSolarFlows`. -/
structure SolarAlloc where
  toBattery : ℤ
  toHome : ℤ
  toGrid : ℤ
  deriving DecidableEq

/-- `allocSolarFlows` (lines 55-61 of `DashboardCharts.jsx`): split solar
into toBattery (11 percent), toHome (19 percent), toGrid (rest). -/
def allocSolarFlows (solarKWh : ℕ) : SolarAlloc :=
  let toBattery : ℤ := ⌊(solarKWh : ℚ) * 0.11⌋
  let toHome : ℤ := ⌊(solarKWh : ℚ) * 0.19⌋
  { toBattery := toBattery
    toHome := toHome
    toGrid := max ((solarKWh : ℤ) - toBattery - toHome) 0 }

/-- Result record of `allocHomeSources`. -/
structure HomeAlloc where
  fromSolar : ℤ
  fromBattery : ℤ
  fromGrid : ℤ
  deriving DecidableEq

/-- `allocHomeSources` (lines 63-68 of `DashboardCharts.jsx`). -/
def allocHomeSources (homeKWh : ℕ) (fromSolar fromBattery : ℤ) : HomeAlloc :=
  let s := min fromSolar ⌊(homeKWh : ℚ) * 0.4⌋
  let b := min fromBattery ⌊(homeKWh : ℚ) * 0.25⌋
  { fromSolar := s
    fromBattery := b
    fromGrid := max ((homeKWh : ℤ) - s - b) 0 }

/-- `totalKWh` (line 86 of `DashboardCharts.jsx`). -/
def totalKWh (homeKWh solarKWh gridKWh : ℕ) : ℕ :=
  homeKWh + solarKWh + gridKWh

/-- `emissionsKg` (line 87 of `DashboardCharts.jsx`). -/
def emissionsKg (homeKWh gridKWh : ℕ) : ℚ :=
  ((homeKWh : ℚ) + (gridKWh : ℚ)) * EF_GRID

/-- `avoidedKg` (line 88 of `DashboardCharts.jsx`). -/
def avoidedKg (solarKWh : ℕ) : ℚ :=
  (solarKWh : ℚ) * EF_GRID

/-- `netExported` (line 181 of `DashboardCharts.jsx`):
`Math.max(toGrid - gridKWh, 0)`. -/
def netExported (toGrid : ℤ) (gridKWh : ℕ) : ℤ :=
  max (toGrid - (gridKWh : ℤ)) 0

/-- `gaugeVal` (line 112 of `DashboardCharts.jsx`):
`Math.min(100, toBattery * 10)`. -/
def gaugeVal (toBattery : ℤ) : ℤ :=
  min 100 (toBattery * 10)

/-- JavaScript `Math.round`: round half towards positive infinity. -/
noncomputable def jsRound (x : ℝ) : ℤ :=
  ⌊x + 1 / 2⌋

/-- One record of the 12-point weekly series built by `buildSeries`. -/
structure WeekPoint where
  t : String
  temperature : ℤ
  humidity : ℤ
  grid : ℤ

/-- Loop body of `buildSeries` (lines 43-51 of `DashboardCharts.jsx`) at
loop index `i`, with `t = i + 1`. -/
noncomputable def weekPoint (homeKWh solarKWh gridKWh : ℕ) (i : ℕ) : WeekPoint :=
  let t := i + 1
  { t := "W" ++ toString t
    temperature := max 0 ((solarKWh : ℤ) +
      jsRound (Real.sin ((t : ℝ) / 3 * Real.pi) * ((solarKWh : ℝ) / 2)))
    humidity := max 0 ((homeKWh : ℤ) +
      jsRound (Real.cos ((t : ℝ) / 4 * Real.pi) * ((homeKWh : ℝ) / 2)))
    grid := max 0 ((gridKWh : ℤ) +
      jsRound (Real.sin ((t : ℝ) / 5 * Real.pi) * ((gridKWh : ℝ) / 2))) }

/-- `buildSeries` (lines 39-53 of `DashboardCharts.jsx`): 12 points. -/
noncomputable def buildSeries (homeKWh solarKWh gridKWh : ℕ) : List WeekPoint :=
  (List.range 12).map (weekPoint homeKWh solarKWh gridKWh)

/-- One record of the 10-point hourly series `daySeries`. -/
structure DayPoint where
  t : String
  toHome : ℤ
  orientation : ℤ

/-- Body of the `daySeries` comprehension (lines 91-95 of
`DashboardCharts.jsx`) at index `i`. -/
noncomputable def dayPoint (toHome toGrid : ℤ) (i : ℕ) : DayPoint :=
  { t := toString i ++ ":00"
    toHome := max 0 (jsRound ((toHome : ℝ) / 5 * Real.sin ((i : ℝ) / 3 * Real.pi) +
      (toHome : ℝ) / 2))
    orientation := max 0 (jsRound ((toGrid : ℝ) / 5 * Real.cos ((i : ℝ) / 3 * Real.pi) +
      (toGrid : ℝ) / 2)) }

/-- `daySeries` (lines 91-95 of `DashboardCharts.jsx`): 10 points built
from the solar allocation's `toHome` and `toGrid`. -/
noncomputable def daySeries (toHome toGrid : ℤ) : List DayPoint :=
  (List.range 10).map (dayPoint toHome toGrid)

/-- The formula the spec asserts for every entry of the synthesized
series, read literally from the spec text: value
`base + round(sin_or_cos(phase(i)) * base/2)`, clamped to be
non-negative.  For the hourly series the trig function is `sin` over
period `i/3` on the `toHome` base. -/
noncomputable def specHourlyToHome (base : ℤ) (i : ℕ) : ℤ :=
  max 0 (base + jsRound (Real.sin ((i : ℝ) / 3 * Real.pi) * ((base : ℝ) / 2)))

/-- One `{name, value}` record of `solarPie` / `homePie`. -/
structure PieEntry where
  name : String
  value : ℤ

/-- The single record of `gridBar` (lines 108-110 of
`DashboardCharts.jsx`). -/
structure GridBarEntry where
  name : String
  fromGrid : ℤ
  toGrid : ℤ

/-- `gridBar` (lines 108-110 of `DashboardCharts.jsx`): a one-record
list whose `fromGrid` field is the raw `gridKWh` digit and whose
`toGrid` field is the solar allocation's `toGrid`. -/
def gridBar (gridKWh : ℕ) (toGrid : ℤ) : List GridBarEntry :=
  [{ name := "Grid", fromGrid := (gridKWh : ℤ), toGrid := toGrid }]

/-- Everything the `DashboardCharts` component computes from the route
code (lines 81-112 of `DashboardCharts.jsx`). -/
structure Outputs where
  code : String
  homeKWh : ℕ
  solarKWh : ℕ
  gridKWh : ℕ
  solarAlloc : SolarAlloc
  homeAlloc : HomeAlloc
  totalKWh : ℕ
  emissionsKg : ℚ
  avoidedKg : ℚ
  series : List WeekPoint
  daySeries : List DayPoint
  solarPie : List PieEntry
  homePie : List PieEntry
  gridBar : List GridBarEntry
  netExported : ℤ
  gaugeVal : ℤ

/-- The full derivation performed by the `DashboardCharts` component
body (lines 81-112 of `DashboardCharts.jsx`): normalize the code, run
both allocations, compute totals, both series, both pies, the grid bar,
the net-exported scalar and the gauge value. -/
noncomputable def dashboardOutputs (code : String) : Outputs :=
  let k := useDigitsToKwh code
  let sa := allocSolarFlows k.solarKWh
  let ha := allocHomeSources k.homeKWh sa.toHome sa.toBattery
  { code := k.code
    homeKWh := k.homeKWh
    solarKWh := k.solarKWh
    gridKWh := k.gridKWh
    solarAlloc := sa
    homeAlloc := ha
    totalKWh := totalKWh k.homeKWh k.solarKWh k.gridKWh
    emissionsKg := emissionsKg k.homeKWh k.gridKWh
    avoidedKg := avoidedKg k.solarKWh
    series := buildSeries k.homeKWh k.solarKWh k.gridKWh
    daySeries := daySeries sa.toHome sa.toGrid
    solarPie := [{ name := "To Battery", value := sa.toBattery },
      { name := "To Home", value := sa.toHome },
      { name := "To Grid", value := sa.toGrid }]
    homePie := [{ name := "From Solar", value := ha.fromSolar },
      { name := "From Battery", value := ha.fromBattery },
      { name := "From Grid", value := ha.fromGrid }]
    gridBar := gridBar k.gridKWh sa.toGrid
    netExported := netExported sa.toGrid k.gridKWh
    gaugeVal := gaugeVal sa.toBattery }

/-- The base name of an uploaded file: `name.replace(/\.[^.]+$/, "")`
in `extractTrailingNumber` (line 44 of `UploadAndPickLeaflet.jsx`).  The
regular expression matches exactly when the name has a dot followed by a
non-empty dot-free suffix, and then removes the last such dot and the
suffix after it. -/
def stripExt (l : List Char) : List Char :=
  let after := l.reverse.takeWhile (fun c => c ≠ '.')
  if '.' ∈ l ∧ after ≠ [] then (l.reverse.drop (after.length + 1)).reverse else l

/-- Decimal value of a digit string, as computed by
`parseInt(digits, 10)` for a non-empty all-digit string. -/
def parseDigits (l : List Char) : ℕ :=
  l.foldl (fun a c => a * 10 + (c.toNat - 48)) 0

/-- Result pair of `extractTrailingNumber`. -/
structure ExtractResult where
  num : Option ℕ
  error : String
  deriving DecidableEq

/-- `extractTrailingNumber` (lines 43-50 of `UploadAndPickLeaflet.jsx`):
strip the extension, match `/(\d{1,3})$/` (the last one-to-three
trailing digits), parse them and require a value in [1, 100]. -/
def extractTrailingNumber (name : String) : ExtractResult :=
  let base := stripExt name.data
  let run := base.reverse.takeWhile Char.isDigit
  if run = [] then { num := none, error := "Filename must end in a number (001-100)." }
  else
    let n := parseDigits (run.take 3).reverse
    if n < 1 ∨ 100 < n then { num := none, error := "Number must be 001-100." }
    else { num := some n, error := "" }

/-- A map coordinate as captured by the location picker. -/
structure LatLng where
  lat : ℚ
  lng : ℚ
  deriving DecidableEq

/-- `String(fileNumber).padStart(3, "0")` (line 85 of
`UploadAndPickLeaflet.jsx`). -/
def padCode (n : ℕ) : String :=
  (padStart 3 '0' (toString n).data).asString

/-- `canContinue` (line 81 of `UploadAndPickLeaflet.jsx`):
`fileNumber !== null && !fileError && !!marker`. -/
def canContinue (fileNumber : Option ℕ) (fileError : String) (marker : Option LatLng) : Bool :=
  fileNumber.isSome && (fileError == "") && marker.isSome

/-- `handleContinue` (lines 83-90 of `UploadAndPickLeaflet.jsx`),
returning the navigated dashboard code, or `none` when navigation is
refused. -/
def handleContinue (fileNumber : Option ℕ) (fileError : String)
    (marker : Option LatLng) : Option String :=
  if canContinue fileNumber fileError marker then fileNumber.map padCode
  else none

/-! ## Helper lemmas -/

lemma normalize_data (s : String) :
    (normalize s).data = (padStart 3 '0' (filterDigits s)).take 3 := rfl

lemma normalize_length (s : String) : (normalize s).length = 3 := by
  have h : (normalize s).length = ((padStart 3 '0' (filterDigits s)).take 3).length := rfl
  rw [h]
  simp [padStart]
  omega

lemma isDigit_of_mem_normalize {s : String} {c : Char}
    (hc : c ∈ (normalize s).data) : c.isDigit = true := by
  rw [normalize_data] at hc
  have hc' : c ∈ padStart 3 '0' (filterDigits s) := List.mem_of_mem_take hc
  simp only [padStart] at hc'
  rcases List.mem_append.mp hc' with h | h
  · rw [List.eq_of_mem_replicate h]; rfl
  · simp only [filterDigits] at h
    exact (List.mem_filter.mp h).2

lemma digitVal_le_nine {c : Char} (h : c.isDigit = true) : digitVal c ≤ 9 := by
  simp only [Char.isDigit, Bool.and_eq_true, decide_eq_true_eq] at h
  have h2 : c.val.toNat ≤ 57 := UInt32.toNat_le_of_le (by decide) h.2
  simp only [digitVal, Char.toNat]
  omega

lemma getD_mem_of_lt {l : List Char} {i : ℕ} (h : i < l.length) (d : Char) :
    l.getD i d ∈ l := by
  rw [List.getD_eq_getElem?_getD, List.getElem?_eq_getElem h]
  exact List.getElem_mem h

lemma kwh_le_nine (code : String) :
    (useDigitsToKwh code).homeKWh ≤ 9 ∧ (useDigitsToKwh code).solarKWh ≤ 9 ∧
      (useDigitsToKwh code).gridKWh ≤ 9 := by
  have hlen : (normalize code).data.length = 3 := normalize_length code
  refine ⟨?_, ?_, ?_⟩ <;>
    exact digitVal_le_nine (isDigit_of_mem_normalize (getD_mem_of_lt (by omega) _))

lemma floor_nonneg_nat (m : ℕ) (q : ℚ) (hq : 0 ≤ q) : 0 ≤ ⌊(m : ℚ) * q⌋ := by
  apply Int.floor_nonneg.mpr
  positivity

lemma solar_split (sol : ℕ) :
    0 ≤ (allocSolarFlows sol).toBattery ∧ 0 ≤ (allocSolarFlows sol).toHome ∧
      0 ≤ (allocSolarFlows sol).toGrid ∧
      (allocSolarFlows sol).toBattery + (allocSolarFlows sol).toHome +
        (allocSolarFlows sol).toGrid = (sol : ℤ) := by
  simp only [allocSolarFlows]
  have h1 : 0 ≤ ⌊(sol : ℚ) * 0.11⌋ := floor_nonneg_nat sol _ (by norm_num)
  have h2 : 0 ≤ ⌊(sol : ℚ) * 0.19⌋ := floor_nonneg_nat sol _ (by norm_num)
  have h3 : ⌊(sol : ℚ) * 0.11⌋ + ⌊(sol : ℚ) * 0.19⌋ ≤ (sol : ℤ) := by
    have a1 := Int.floor_le ((sol : ℚ) * 0.11)
    have a2 := Int.floor_le ((sol : ℚ) * 0.19)
    have hs : (0 : ℚ) ≤ (sol : ℚ) := by positivity
    have : ((⌊(sol : ℚ) * 0.11⌋ + ⌊(sol : ℚ) * 0.19⌋ : ℤ) : ℚ) ≤ (sol : ℚ) := by
      push_cast
      linarith
    exact_mod_cast this
  refine ⟨h1, h2, ?_, ?_⟩ <;> omega

lemma home_split (h : ℕ) (fs fb : ℤ) (hfs : 0 ≤ fs) (hfb : 0 ≤ fb) :
    0 ≤ (allocHomeSources h fs fb).fromSolar ∧ 0 ≤ (allocHomeSources h fs fb).fromBattery ∧
      0 ≤ (allocHomeSources h fs fb).fromGrid ∧
      (allocHomeSources h fs fb).fromSolar + (allocHomeSources h fs fb).fromBattery +
        (allocHomeSources h fs fb).fromGrid = (h : ℤ) := by
  simp only [allocHomeSources]
  have h1 : 0 ≤ ⌊(h : ℚ) * 0.4⌋ := floor_nonneg_nat h _ (by norm_num)
  have h2 : 0 ≤ ⌊(h : ℚ) * 0.25⌋ := floor_nonneg_nat h _ (by norm_num)
  have h3 : ⌊(h : ℚ) * 0.4⌋ + ⌊(h : ℚ) * 0.25⌋ ≤ (h : ℤ) := by
    have a1 := Int.floor_le ((h : ℚ) * 0.4)
    have a2 := Int.floor_le ((h : ℚ) * 0.25)
    have hs : (0 : ℚ) ≤ (h : ℚ) := by positivity
    have : ((⌊(h : ℚ) * 0.4⌋ + ⌊(h : ℚ) * 0.25⌋ : ℤ) : ℚ) ≤ (h : ℚ) := by
      push_cast
      linarith
    exact_mod_cast this
  refine ⟨?_, ?_, ?_, ?_⟩ <;> omega

lemma getD_map_range {α : Type} (f : ℕ → α) {n i : ℕ} (h : i < n) (d : α) :
    ((List.range n).map f).getD i d = f i := by
  simp [List.getD_eq_getElem?_getD, List.getElem?_range, h]

lemma daySeries_getD_four : (daySeries 1 0).getD 4 ⟨"", 0, 0⟩ = dayPoint 1 0 4 :=
  getD_map_range (dayPoint 1 0) (by norm_num) _

lemma sqrt3_lt_two : Real.sqrt 3 < 2 := by
  have h := Real.sq_sqrt (by norm_num : (3 : ℝ) ≥ 0)
  nlinarith [Real.sqrt_nonneg 3]

lemma sqrt3_pos : 0 < Real.sqrt 3 := Real.sqrt_pos.mpr (by norm_num)

lemma sin_four_thirds_pi : Real.sin ((4 : ℝ) / 3 * Real.pi) = -(Real.sqrt 3 / 2) := by
  have h : (4 : ℝ) / 3 * Real.pi = Real.pi + Real.pi / 3 := by ring
  rw [h, Real.sin_add, Real.sin_pi, Real.cos_pi, Real.sin_pi_div_three]
  ring

lemma dayPoint_toHome_val : (dayPoint 1 0 4).toHome = 0 := by
  have hc : ((4 : ℕ) : ℝ) = (4 : ℝ) := by norm_num
  have hone : ((1 : ℤ) : ℝ) = (1 : ℝ) := by norm_num
  simp only [dayPoint, hc, hone]
  have key : jsRound ((1 : ℝ) / 5 * Real.sin ((4 : ℝ) / 3 * Real.pi) + (1 : ℝ) / 2) = 0 := by
    rw [sin_four_thirds_pi]
    have h : (1 : ℝ) / 5 * -(Real.sqrt 3 / 2) + 1 / 2 + 1 / 2 = 1 - Real.sqrt 3 / 10 := by ring
    unfold jsRound
    rw [h]
    apply Int.floor_eq_zero_iff.mpr
    constructor
    · nlinarith [sqrt3_lt_two, sqrt3_pos]
    · nlinarith [sqrt3_pos]
  rw [key]
  exact max_self 0

lemma specHourly_val : specHourlyToHome 1 4 = 1 := by
  have hc : ((4 : ℕ) : ℝ) = (4 : ℝ) := by norm_num
  have hone : ((1 : ℤ) : ℝ) = (1 : ℝ) := by norm_num
  simp only [specHourlyToHome, hc, hone]
  rw [sin_four_thirds_pi]
  have h : -(Real.sqrt 3 / 2) * ((1 : ℝ) / 2) + 1 / 2 = 1 / 2 - Real.sqrt 3 / 4 := by ring
  unfold jsRound
  rw [h]
  have hz : ⌊(1 : ℝ) / 2 - Real.sqrt 3 / 4⌋ = 0 := by
    apply Int.floor_eq_zero_iff.mpr
    constructor
    · nlinarith [sqrt3_lt_two, sqrt3_pos]
    · nlinarith [sqrt3_pos]
  rw [hz]
  norm_num

/-! ## The claims -/

/-- Claim C1: for every digit triple (home, solar, grid) with each digit in
[0, 9], the flow derivation (`allocSolarFlows` followed by
`allocHomeSources`) yields `toBattery + toHome + toGrid = solar` and
`fromSolar + fromBattery + fromGrid = home`, with all six allocation
values non-negative. -/
theorem claim_C1 (home sol grid : ℕ) (hh : home ≤ 9) (hs : sol ≤ 9) (hg : grid ≤ 9) :
    (allocSolarFlows sol).toBattery + (allocSolarFlows sol).toHome +
        (allocSolarFlows sol).toGrid = (sol : ℤ)
    ∧ (allocHomeSources home (allocSolarFlows sol).toHome
          (allocSolarFlows sol).toBattery).fromSolar +
        (allocHomeSources home (allocSolarFlows sol).toHome
          (allocSolarFlows sol).toBattery).fromBattery +
        (allocHomeSources home (allocSolarFlows sol).toHome
          (allocSolarFlows sol).toBattery).fromGrid = (home : ℤ)
    ∧ 0 ≤ (allocSolarFlows sol).toBattery ∧ 0 ≤ (allocSolarFlows sol).toHome
    ∧ 0 ≤ (allocSolarFlows sol).toGrid
    ∧ 0 ≤ (allocHomeSources home (allocSolarFlows sol).toHome
        (allocSolarFlows sol).toBattery).fromSolar
    ∧ 0 ≤ (allocHomeSources home (allocSolarFlows sol).toHome
        (allocSolarFlows sol).toBattery).fromBattery
    ∧ 0 ≤ (allocHomeSources home (allocSolarFlows sol).toHome
        (allocSolarFlows sol).toBattery).fromGrid := by
  obtain ⟨a1, a2, a3, a4⟩ := solar_split sol
  obtain ⟨b1, b2, b3, b4⟩ := home_split home _ _ a2 a1
  exact ⟨a4, b4, a1, a2, a3, b1, b2, b3⟩

/-- Witness for claim C1 at the digit triple (3, 3, 3). -/
theorem claim_C1_witness :
    ((3 : ℕ) ≤ 9)
    ∧ ((allocSolarFlows 3).toBattery + (allocSolarFlows 3).toHome +
          (allocSolarFlows 3).toGrid = ((3 : ℕ) : ℤ)
      ∧ (allocHomeSources 3 (allocSolarFlows 3).toHome
            (allocSolarFlows 3).toBattery).fromSolar +
          (allocHomeSources 3 (allocSolarFlows 3).toHome
            (allocSolarFlows 3).toBattery).fromBattery +
          (allocHomeSources 3 (allocSolarFlows 3).toHome
            (allocSolarFlows 3).toBattery).fromGrid = ((3 : ℕ) : ℤ)
      ∧ 0 ≤ (allocSolarFlows 3).toBattery ∧ 0 ≤ (allocSolarFlows 3).toHome
      ∧ 0 ≤ (allocSolarFlows 3).toGrid
      ∧ 0 ≤ (allocHomeSources 3 (allocSolarFlows 3).toHome
          (allocSolarFlows 3).toBattery).fromSolar
      ∧ 0 ≤ (allocHomeSources 3 (allocSolarFlows 3).toHome
          (allocSolarFlows 3).toBattery).fromBattery
      ∧ 0 ≤ (allocHomeSources 3 (allocSolarFlows 3).toHome
          (allocSolarFlows 3).toBattery).fromGrid) :=
  ⟨by decide, claim_C1 3 3 3 (by decide) (by decide) (by decide)⟩

/-- Claim C2: for every input string, the code normalizer returns a string
of length exactly 3 consisting only of ASCII digit characters, and in
particular `normalize "report" = "000"`; the normalizer is a total
function, so it never fails. -/
theorem claim_C2 (s : String) :
    (normalize s).length = 3 ∧ (normalize s).data.all Char.isDigit = true ∧
      normalize "report" = "000" := by
  refine ⟨normalize_length s, ?_, by decide⟩
  rw [List.all_eq_true]
  intro c hc
  exact isDigit_of_mem_normalize hc

/-- Claim C3, counterexample: the hourly series entry at base `toHome = 1`
and index `i = 4` is `0` (the code computes
`round(base/5 * sin(i*pi/3) + base/2)`), while the claimed formula
`max 0 (base + round(sin(i*pi/3) * base/2))` gives `1`. -/
theorem claim_C3_counterexample :
    ((daySeries 1 0).getD 4 ⟨"", 0, 0⟩).toHome ≠ specHourlyToHome 1 4 := by
  rw [daySeries_getD_four, dayPoint_toHome_val, specHourly_val]
  decide

/-- Claim C3 as amended: every entry of the 12-point weekly series has the
claimed shape `max 0 (base + round(trig(phase(i)) * base/2))` with phase
`(i+1)/3, (i+1)/4, (i+1)/5` times pi over the solar/home/grid bases, but
every entry of the 10-point hourly series instead has value
`max 0 (round(base/5 * trig(i/3 * pi) + base/2))` over the
`toHome`/`toGrid` bases. -/
theorem claim_C3_amended (home sol grid : ℕ) (tH tG : ℤ) (i j : ℕ)
    (hi : i < 12) (hj : j < 10) :
    (buildSeries home sol grid).getD i ⟨"", 0, 0, 0⟩ =
      { t := "W" ++ toString (i + 1)
        temperature := max 0 ((sol : ℤ) +
          jsRound (Real.sin (((i : ℝ) + 1) / 3 * Real.pi) * ((sol : ℝ) / 2)))
        humidity := max 0 ((home : ℤ) +
          jsRound (Real.cos (((i : ℝ) + 1) / 4 * Real.pi) * ((home : ℝ) / 2)))
        grid := max 0 ((grid : ℤ) +
          jsRound (Real.sin (((i : ℝ) + 1) / 5 * Real.pi) * ((grid : ℝ) / 2))) }
    ∧ (daySeries tH tG).getD j ⟨"", 0, 0⟩ =
      { t := toString j ++ ":00"
        toHome := max 0 (jsRound ((tH : ℝ) / 5 * Real.sin ((j : ℝ) / 3 * Real.pi) +
          (tH : ℝ) / 2))
        orientation := max 0 (jsRound ((tG : ℝ) / 5 * Real.cos ((j : ℝ) / 3 * Real.pi) +
          (tG : ℝ) / 2)) } := by
  constructor
  · rw [buildSeries, getD_map_range _ hi]
    have hc : ((i + 1 : ℕ) : ℝ) = (i : ℝ) + 1 := by push_cast; ring
    simp only [weekPoint, hc]
  · rw [daySeries, getD_map_range _ hj]
    rfl

/-- Witness for the amended claim C3 at bases 0 and indices 0. -/
theorem claim_C3_amended_witness :
    ((0 : ℕ) < 12) ∧ ((0 : ℕ) < 10) ∧
      ((buildSeries 0 0 0).getD 0 ⟨"", 0, 0, 0⟩ =
        { t := "W" ++ toString ((0 : ℕ) + 1)
          temperature := max 0 (((0 : ℕ) : ℤ) +
            jsRound (Real.sin ((((0 : ℕ) : ℝ) + 1) / 3 * Real.pi) * (((0 : ℕ) : ℝ) / 2)))
          humidity := max 0 (((0 : ℕ) : ℤ) +
            jsRound (Real.cos ((((0 : ℕ) : ℝ) + 1) / 4 * Real.pi) * (((0 : ℕ) : ℝ) / 2)))
          grid := max 0 (((0 : ℕ) : ℤ) +
            jsRound (Real.sin ((((0 : ℕ) : ℝ) + 1) / 5 * Real.pi) * (((0 : ℕ) : ℝ) / 2))) }
      ∧ (daySeries 0 0).getD 0 ⟨"", 0, 0⟩ =
        { t := toString (0 : ℕ) ++ ":00"
          toHome := max 0 (jsRound (((0 : ℤ) : ℝ) / 5 *
            Real.sin (((0 : ℕ) : ℝ) / 3 * Real.pi) + ((0 : ℤ) : ℝ) / 2))
          orientation := max 0 (jsRound (((0 : ℤ) : ℝ) / 5 *
            Real.cos (((0 : ℕ) : ℝ) / 3 * Real.pi) + ((0 : ℤ) : ℝ) / 2)) }) :=
  ⟨by decide, by decide, claim_C3_amended 0 0 0 0 0 0 0 (by decide) (by decide)⟩

/-- Claim C4: for the input code "333" the derivation yields digits
(3, 3, 3), solar allocation (0, 0, 3), home allocation (0, 0, 3),
`totalKWh = 9`, `emissionsKg = 2.7` and `avoidedKg = 1.35`. -/
theorem claim_C4 :
    useDigitsToKwh "333" = ⟨"333", 3, 3, 3⟩
    ∧ allocSolarFlows 3 = ⟨0, 0, 3⟩
    ∧ allocHomeSources 3 (allocSolarFlows 3).toHome (allocSolarFlows 3).toBattery = ⟨0, 0, 3⟩
    ∧ totalKWh 3 3 3 = 9
    ∧ emissionsKg 3 3 = 2.7
    ∧ avoidedKg 3 = 1.35 := by
  refine ⟨by decide, ?_, ?_, by rfl, ?_, ?_⟩ <;>
  · simp only [allocSolarFlows, allocHomeSources, emissionsKg, avoidedKg, EF_GRID]
    norm_num

/-- Claim C5: for every digit pair (solar, grid), the chart-data shaper
computes `netExported = max (toGrid - grid) 0` and
`gaugeVal = min 100 (toBattery * 10)`, and the gauge value always lies in
[0, 100]. -/
theorem claim_C5 (sol grid : ℕ) :
    netExported (allocSolarFlows sol).toGrid grid =
        max ((allocSolarFlows sol).toGrid - (grid : ℤ)) 0
    ∧ gaugeVal (allocSolarFlows sol).toBattery =
        min 100 ((allocSolarFlows sol).toBattery * 10)
    ∧ 0 ≤ gaugeVal (allocSolarFlows sol).toBattery
    ∧ gaugeVal (allocSolarFlows sol).toBattery ≤ 100 := by
  obtain ⟨a1, -, -, -⟩ := solar_split sol
  refine ⟨rfl, rfl, ?_, min_le_left _ _⟩
  simp only [gaugeVal]
  omega

/-- Claim C6: for every digit triple, the weekly series has exactly 12
entries and the hourly series exactly 10, and every numeric field of
every entry in both series is non-negative. -/
theorem claim_C6 (home sol grid : ℕ) :
    (buildSeries home sol grid).length = 12
    ∧ (∀ p ∈ buildSeries home sol grid,
        0 ≤ p.temperature ∧ 0 ≤ p.humidity ∧ 0 ≤ p.grid)
    ∧ (daySeries (allocSolarFlows sol).toHome (allocSolarFlows sol).toGrid).length = 10
    ∧ (∀ p ∈ daySeries (allocSolarFlows sol).toHome (allocSolarFlows sol).toGrid,
        0 ≤ p.toHome ∧ 0 ≤ p.orientation) := by
  refine ⟨by simp [buildSeries], ?_, by simp [daySeries], ?_⟩
  · intro p hp
    simp only [buildSeries, List.mem_map] at hp
    obtain ⟨i, -, rfl⟩ := hp
    exact ⟨le_max_left _ _, le_max_left _ _, le_max_left _ _⟩
  · intro p hp
    simp only [daySeries, List.mem_map] at hp
    obtain ⟨i, -, rfl⟩ := hp
    exact ⟨le_max_left _ _, le_max_left _ _⟩

/-- Claim C7: the derivation is deterministic; two invocations of the full
dashboard derivation on the same code produce identical output bundles
(the embedding is a pure function with no hidden state). -/
theorem claim_C7 (a b : String) (h : a = b) : dashboardOutputs a = dashboardOutputs b := by
  rw [h]

/-- Witness for claim C7: two invocations on the code "333" agree. -/
theorem claim_C7_witness :
    ("333" : String) = "333" ∧ dashboardOutputs "333" = dashboardOutputs "333" :=
  ⟨rfl, claim_C7 "333" "333" rfl⟩

/-- Claim C8: `extractTrailingNumber` returns an error (equivalently, no
number) exactly when the base name ends in no digit, or the last
one-to-three trailing digits parse to a number outside [1, 100];
navigation succeeds exactly when a number and a marker both exist, and
the navigated code is the number zero-padded to 3 digits. -/
theorem claim_C8 (name : String) (marker : Option LatLng) :
    ((extractTrailingNumber name).num = none ↔ (extractTrailingNumber name).error ≠ "")
    ∧ ((extractTrailingNumber name).num = none ↔
        (stripExt name.data).reverse.takeWhile Char.isDigit = []
        ∨ parseDigits (((stripExt name.data).reverse.takeWhile Char.isDigit).take 3).reverse < 1
        ∨ 100 < parseDigits (((stripExt name.data).reverse.takeWhile
            Char.isDigit).take 3).reverse)
    ∧ ((handleContinue (extractTrailingNumber name).num (extractTrailingNumber name).error
          marker).isSome = true
        ↔ (extractTrailingNumber name).num.isSome = true ∧ marker.isSome = true)
    ∧ (∀ n : ℕ, (extractTrailingNumber name).num = some n → marker.isSome = true →
        handleContinue (extractTrailingNumber name).num (extractTrailingNumber name).error marker
          = some (padCode n)) := by
  have hres : extractTrailingNumber name =
      if (stripExt name.data).reverse.takeWhile Char.isDigit = [] then
        { num := none, error := "Filename must end in a number (001-100)." }
      else if parseDigits (((stripExt name.data).reverse.takeWhile
            Char.isDigit).take 3).reverse < 1
          ∨ 100 < parseDigits (((stripExt name.data).reverse.takeWhile
            Char.isDigit).take 3).reverse then
        { num := none, error := "Number must be 001-100." }
      else { num := some (parseDigits (((stripExt name.data).reverse.takeWhile
          Char.isDigit).take 3).reverse), error := "" } := rfl
  by_cases h1 : (stripExt name.data).reverse.takeWhile Char.isDigit = []
  · rw [hres, if_pos h1]
    refine ⟨by simp, by simp [h1], by simp [handleContinue, canContinue], by simp⟩
  · by_cases h2 : parseDigits (((stripExt name.data).reverse.takeWhile
          Char.isDigit).take 3).reverse < 1
        ∨ 100 < parseDigits (((stripExt name.data).reverse.takeWhile
          Char.isDigit).take 3).reverse
    · rw [hres, if_neg h1, if_pos h2]
      refine ⟨by simp, by simp [h1]; omega, by simp [handleContinue, canContinue], by simp⟩
    · rw [hres, if_neg h1, if_neg h2]
      refine ⟨by simp, by simp [h1]; omega, ?_, ?_⟩
      · cases marker with
        | none => simp [handleContinue, canContinue]
        | some m => simp [handleContinue, canContinue]
      · intro n hn hm
        cases marker with
        | none => simp at hm
        | some m =>
          simp only [Option.some.injEq] at hn
          simp [handleContinue, canContinue, hn]

/-- Claim C9: `floor(solar * 0.11) = 0` for every solar digit in [0, 9],
so `allocSolarFlows` always returns `toBattery = 0`; consequently, for
every code the dashboard can receive, `fromBattery = 0` and the gauge
value is 0. -/
theorem claim_C9 :
    (∀ sol : ℕ, sol ≤ 9 → (allocSolarFlows sol).toBattery = 0)
    ∧ (∀ code : String, (dashboardOutputs code).solarAlloc.toBattery = 0
        ∧ (dashboardOutputs code).homeAlloc.fromBattery = 0
        ∧ (dashboardOutputs code).gaugeVal = 0) := by
  have key : ∀ sol : ℕ, sol ≤ 9 → (allocSolarFlows sol).toBattery = 0 := by
    intro sol hs
    interval_cases sol <;> (simp only [allocSolarFlows]; norm_num)
  refine ⟨key, fun code => ?_⟩
  have hsol := (kwh_le_nine code).2.1
  have htb : (allocSolarFlows (useDigitsToKwh code).solarKWh).toBattery = 0 := key _ hsol
  have hproj1 : (dashboardOutputs code).solarAlloc =
      allocSolarFlows (useDigitsToKwh code).solarKWh := rfl
  have hproj2 : (dashboardOutputs code).homeAlloc =
      allocHomeSources (useDigitsToKwh code).homeKWh
        (allocSolarFlows (useDigitsToKwh code).solarKWh).toHome
        (allocSolarFlows (useDigitsToKwh code).solarKWh).toBattery := rfl
  have hproj3 : (dashboardOutputs code).gaugeVal =
      gaugeVal (allocSolarFlows (useDigitsToKwh code).solarKWh).toBattery := rfl
  refine ⟨by rw [hproj1, htb], ?_, ?_⟩
  · rw [hproj2, htb]
    simp only [allocHomeSources]
    have := floor_nonneg_nat (useDigitsToKwh code).homeKWh (0.25) (by norm_num)
    omega
  · rw [hproj3, htb]
    decide

/-- Claim C10: for every code, the gridBar output is the single record
whose `fromGrid` field is the raw grid digit and whose `toGrid` field is
the solar allocation's `toGrid`; the `fromGrid` field is not the home
allocation's `fromGrid` (they differ at the triple (5, 0, 0)). -/
theorem claim_C10 (code : String) :
    (dashboardOutputs code).gridBar =
      [{ name := "Grid", fromGrid := ((dashboardOutputs code).gridKWh : ℤ),
         toGrid := (dashboardOutputs code).solarAlloc.toGrid }]
    ∧ ((gridBar 0 (allocSolarFlows 0).toGrid).getD 0 ⟨"", 0, 0⟩).fromGrid ≠
        (allocHomeSources 5 (allocSolarFlows 0).toHome
          (allocSolarFlows 0).toBattery).fromGrid := by
  constructor
  · rfl
  · have h0 : ((gridBar 0 (allocSolarFlows 0).toGrid).getD 0 ⟨"", 0, 0⟩).fromGrid = 0 := rfl
    have h5 : (allocHomeSources 5 (allocSolarFlows 0).toHome
        (allocSolarFlows 0).toBattery).fromGrid = 5 := by
      simp only [allocHomeSources, allocSolarFlows]
      norm_num
    rw [h0, h5]
    decide

end Econstruct
